import Mathlib

/-!
Verification of the order synchronization pipeline of the brands-manago
repository against its natural-language specification.

The embedding translates, statement by statement:
  * `ExternalApiService.transformOrderData`, `saveOrdersToDatabase` and
    `downloadOrdersByTimeWindow` (external-api-service, the revision with
    `DATE_TYPES` and the time-window fetch),
  * `orderModel.getByExternalId` / `create` / `updateByExternalId`
    (app/models/order-model.js),
  * `OrderSchedulerService.runScheduledTask`, `downloadNewOrders`,
    `runStatusMonitoringTask`, `runStatusMonitoringNow`
    (app/services/order-scheduler-service.js).

Timestamps are natural numbers (a logical UTC clock, one value per clock
read); JavaScript exceptions are `Except String`; `undefined` / `null`
field access is `Option`.
-/

namespace BrandsManago

/-! ## Raw external order payloads

The fields below are exactly the ones the transformer reads from the
third-party payload (every other key of the opaque payload is never
accessed).  `Option` models a missing / null / undefined field, which is
what the lodash `_.get` defaults are guarding against. -/

/-- One entry of `orderDetails.productsResults` as read by the transformer. -/
structure RawProduct where
  productId : Option Nat
  productQuantity : Option Nat
deriving Repr, DecidableEq

/-- `orderDetails.payments.orderCurrency` as read by the transformer. -/
structure RawCurrency where
  currencyId : Option String
  orderProductsCost : Option Int
deriving Repr, DecidableEq

/-- `orderDetails.payments` as read by the transformer. -/
structure RawPayments where
  orderCurrency : Option RawCurrency
deriving Repr, DecidableEq

/-- `orderDetails` of a raw external order, restricted to the keys the
transformer reads. -/
structure RawOrderDetails where
  payments : Option RawPayments
  productsResults : Option (List RawProduct)
  orderStatus : Option String
  orderAddDate : Option String
  orderChangeDate : Option String
deriving Repr, DecidableEq

/-- A raw order as returned by the Idosell search endpoints, restricted to
the keys the pipeline reads. -/
structure RawExternalOrder where
  orderId : Option String
  orderSerialNumber : Option Nat
  orderDetails : Option RawOrderDetails
deriving Repr, DecidableEq

/-! ## Transformed order (`transformOrderData` output) -/

/-- One entry of the transformed `orderProducts` list: the transformer keeps
`productId` / `productQuantity` without defaults (`_.get` with no default),
so a missing value stays `undefined`, here `none`. -/
structure OrderProduct where
  productId : Option Nat
  productQuantity : Option Nat
deriving Repr, DecidableEq

/-- The object literal built by `transformOrderData`. -/
structure TransformedOrder where
  externalId : String
  externalSerialNumber : String
  currency : String
  orderProducts : List OrderProduct
  orderProductsCost : Int
  status : String
  externalCreatedAt : String
  externalUpdatedAt : String
deriving Repr, DecidableEq

/-- `ExternalApiService.transformOrderData`.  Mirrors the lodash chain:
`payments` defaults to `{}`, `orderCurrency` to `{}`, `productsResults` to
`{}` (mapped to `[]`), `currencyId` / `orderStatus` / `orderAddDate` /
`orderChangeDate` to `"unknown"`, `orderProductsCost` to `0`, `orderId` to
`''`.  `orderSerialNumber` however is fetched with default `null` and then
`.toString()` is called on it, so a missing or null serial number throws a
`TypeError`; the `Except.error` branch is that throw. -/
def transformOrderData (externalOrder : RawExternalOrder) :
    Except String TransformedOrder :=
  let orderDetails := externalOrder.orderDetails
  let paymentInfo := orderDetails.bind RawOrderDetails.payments
  let currencyInfo := paymentInfo.bind RawPayments.orderCurrency
  let productsResults := (orderDetails.bind RawOrderDetails.productsResults).getD []
  match externalOrder.orderSerialNumber with
  | none => .error "Cannot read properties of null (reading 'toString')"
  | some serial => .ok {
      externalId := externalOrder.orderId.getD ""
      externalSerialNumber := toString serial
      currency := (currencyInfo.bind RawCurrency.currencyId).getD "unknown"
      orderProducts := productsResults.map fun product =>
        { productId := product.productId
          productQuantity := product.productQuantity }
      orderProductsCost := (currencyInfo.bind RawCurrency.orderProductsCost).getD 0
      status := (orderDetails.bind RawOrderDetails.orderStatus).getD "unknown"
      externalCreatedAt := (orderDetails.bind RawOrderDetails.orderAddDate).getD "unknown"
      externalUpdatedAt := (orderDetails.bind RawOrderDetails.orderChangeDate).getD "unknown" }

/-! ## The order store (app/models/order-model.js over the `orders`
collection)

A stored document keeps the fields that the pipeline reads or writes.
`orderModel.create` writes `externalId`, `totalAmount`, `currency`,
`status`, `orderDate`, `createdAt`, `updatedAt` (plus constant-initialized
fields never read back by the pipeline — `customerEmail`, `items`,
`shippingAddress`, … — which are elided here); it does NOT write the sync
fields `externalSerialNumber`, `orderProducts`, `orderProductsCost`,
`externalCreatedAt`, `externalUpdatedAt` produced by the transformer, so
those keys are absent (`none`) on a freshly created document and only
`updateByExternalId`'s `$set` can add them. -/
structure StoredOrder where
  mongoId : Nat
  externalId : String
  totalAmount : Int
  currency : String
  status : String
  orderDate : Nat
  createdAt : Nat
  updatedAt : Nat
  externalSerialNumber : Option String
  orderProducts : Option (List OrderProduct)
  orderProductsCost : Option Int
  externalCreatedAt : Option String
  externalUpdatedAt : Option String
deriving Repr, DecidableEq

namespace OrderModel

/-- `orderModel.getByExternalId`: `findOne({externalId})`, the first
document whose `externalId` matches. -/
def getByExternalId (orders : List StoredOrder) (externalId : String) :
    Option StoredOrder :=
  orders.find? fun o => o.externalId = externalId

/-- `orderModel.create` applied to a transformed order: the inserted
document takes `externalId` from the input, `totalAmount` is
`parseFloat(orderData.totalAmount || 0)` = 0 (a transformed order carries
no `totalAmount`), `currency` and `status` fall back on `'PLN'` /
`'pending'` when falsy, `orderDate`, `createdAt`, `updatedAt` are the
insertion time; the transformer's sync fields are dropped. -/
def create (orders : List StoredOrder) (orderData : TransformedOrder)
    (now : Nat) : List StoredOrder × StoredOrder :=
  let newOrder : StoredOrder := {
    mongoId := orders.length
    externalId := orderData.externalId
    totalAmount := 0
    currency := if orderData.currency = "" then "PLN" else orderData.currency
    status := if orderData.status = "" then "pending" else orderData.status
    orderDate := now
    createdAt := now
    updatedAt := now
    externalSerialNumber := none
    orderProducts := none
    orderProductsCost := none
    externalCreatedAt := none
    externalUpdatedAt := none }
  (orders ++ [newOrder], newOrder)

/-- The `$set` document of `orderModel.updateByExternalId`: every field of
the update data (here always a transformed order) plus a refreshed
`updatedAt`; `createdAt` is not in the update data, so it is untouched. -/
def applyUpdate (o : StoredOrder) (updateData : TransformedOrder)
    (now : Nat) : StoredOrder :=
  { o with
    externalId := updateData.externalId
    externalSerialNumber := some updateData.externalSerialNumber
    currency := updateData.currency
    orderProducts := some updateData.orderProducts
    orderProductsCost := some updateData.orderProductsCost
    status := updateData.status
    externalCreatedAt := some updateData.externalCreatedAt
    externalUpdatedAt := some updateData.externalUpdatedAt
    updatedAt := now }

/-- `orderModel.updateByExternalId`: `findOneAndUpdate({externalId},
{$set: updateFields})` — updates the first matching document and returns
it, or returns `none` when no document matches. -/
def updateByExternalId : List StoredOrder → String → TransformedOrder → Nat →
    List StoredOrder × Option StoredOrder
  | [], _, _, _ => ([], none)
  | o :: rest, externalId, updateData, now =>
    if o.externalId = externalId then
      (applyUpdate o updateData now :: rest, some (applyUpdate o updateData now))
    else
      (o :: (updateByExternalId rest externalId updateData now).1,
       (updateByExternalId rest externalId updateData now).2)

end OrderModel

/-! ## Database with write-fault injection

The Mongo driver can reject a write (index violation, connection loss, …);
`saveOrdersToDatabase` catches such errors per item.  `failingWrites`
injects those environment failures: a `create` or `updateByExternalId`
touching one of the listed external ids throws. -/

structure Db where
  orders : List StoredOrder
  failingWrites : List String
deriving Repr, DecidableEq

def Db.getByExternalId (db : Db) (externalId : String) : Option StoredOrder :=
  OrderModel.getByExternalId db.orders externalId

def Db.create (db : Db) (orderData : TransformedOrder) (now : Nat) :
    Except String Db :=
  if orderData.externalId ∈ db.failingWrites then
    .error "MongoServerError: write failed"
  else
    .ok { db with orders := (OrderModel.create db.orders orderData now).1 }

def Db.updateByExternalId (db : Db) (externalId : String)
    (updateData : TransformedOrder) (now : Nat) :
    Except String (Db × Option StoredOrder) :=
  if externalId ∈ db.failingWrites then
    .error "MongoServerError: write failed"
  else
    let (orders2, found) :=
      OrderModel.updateByExternalId db.orders externalId updateData now
    .ok ({ db with orders := orders2 }, found)

/-! ## The upsert persistence gate (`saveOrdersToDatabase`) -/

/-- The `results` accumulator of `saveOrdersToDatabase`. -/
structure SaveResults where
  total : Nat
  created : Nat
  updated : Nat
  skipped : Nat
  errors : List String
deriving Repr, DecidableEq

/-- One iteration of the `for (const order of orders)` loop of
`saveOrdersToDatabase`: transform (a throw lands in the catch), skip with
an error message when the external id is falsy, otherwise look up by
external id and update / skip / create; any throw from the store appends
a `Failed to save order` message and moves on to the next item. -/
def saveOneOrder (updateExisting : Bool) (now : Nat)
    (acc : Db × SaveResults) (order : RawExternalOrder) : Db × SaveResults :=
  let (db, results) := acc
  match transformOrderData order with
  | .error e =>
    (db, { results with errors := results.errors ++ ["Failed to save order: " ++ e] })
  | .ok transformedOrder =>
    if transformedOrder.externalId = "" then
      (db, { results with
        skipped := results.skipped + 1
        errors := results.errors ++
          ["Order missing external ID: " ++ reprStr order] })
    else
      match db.getByExternalId transformedOrder.externalId with
      | some _ =>
        if updateExisting then
          match db.updateByExternalId transformedOrder.externalId
              transformedOrder now with
          | .error e =>
            (db, { results with
              errors := results.errors ++ ["Failed to save order: " ++ e] })
          | .ok (db2, _) =>
            (db2, { results with updated := results.updated + 1 })
        else
          (db, { results with skipped := results.skipped + 1 })
      | none =>
        match db.create transformedOrder now with
        | .error e =>
          (db, { results with
            errors := results.errors ++ ["Failed to save order: " ++ e] })
        | .ok db2 =>
          (db2, { results with created := results.created + 1 })

/-- `ExternalApiService.saveOrdersToDatabase`: initializes the counters,
returns immediately on an empty batch, otherwise runs the per-item loop
over the store.  `updateExisting` defaults to `true` at the call sites. -/
def saveOrdersToDatabase (orders : List RawExternalOrder)
    (updateExisting : Bool) (now : Nat) (db : Db) : Db × SaveResults :=
  let results0 : SaveResults :=
    { total := orders.length, created := 0, updated := 0, skipped := 0, errors := [] }
  if orders.isEmpty then
    (db, results0)
  else
    orders.foldl (saveOneOrder updateExisting now) (db, results0)

/-! ## Time-window fetch (`downloadOrdersByTimeWindow`)

The external API call is a parameter: it takes the `ordersRange` window the
service builds and yields either the (possibly absent) `Results` list or
the fault object of the rejected request. -/

/-- The fault shape the catch block inspects: `error.cause` (which may be
absent), its `faultCode` and `faultString`, and `error.message`. -/
structure ApiFault where
  hasCause : Bool
  faultCode : Int
  faultString : String
  message : String
deriving Repr, DecidableEq

/-- The date window passed to `idosellClient.searchOrders.ordersRange`
(`ordersDateBegin` / `ordersDateEnd`, both UTC). -/
structure TimeWindow where
  dateFrom : Int
  dateTo : Int
deriving Repr, DecidableEq

/-- The fetch error taxonomy of the spec: the pre-flight `isReady` throw
is the `ConfigurationError`, the wrapped rethrow out of the catch block is
the `ExternalApiError`. -/
inductive FetchError where
  | configurationError (message : String)
  | externalApiError (message : String)
deriving Repr, DecidableEq

/-- The `error.cause` test of `downloadOrdersByTimeWindow`'s catch block:
a cause is present, its `faultCode` is `2` and its `faultString` is the
hardcoded Polish empty-result signature. -/
def isEmptyResultFault (e : ApiFault) : Bool :=
  e.hasCause && e.faultCode == 2 &&
    e.faultString == "Wyszukiwarka zamówień: zwrócono pusty wynik"

/-- The window `downloadOrdersByTimeWindow` builds: `dateTo` is the first
`getCurrentUtcTime()` read (`clock0`), `dateFrom` is the second read
(`clock1`) minus `minutes`.  The two clock reads are distinct calls in the
source, hence two parameters. -/
def timeWindowUsed (clock0 clock1 : Int) (minutes : Int) : TimeWindow :=
  { dateFrom := clock1 - minutes, dateTo := clock0 }

/-- `ExternalApiService.downloadOrdersByTimeWindow`: throws when the
client is not initialized; otherwise queries the API over
`timeWindowUsed`; `Results || []` on success; on a rejection, the
recognized empty-result fault becomes `[]` and every other fault is
rethrown as `Failed to download orders: …`.  No validation of `minutes`
happens anywhere on this path. -/
def downloadOrdersByTimeWindow (ready : Bool) (clock0 clock1 : Int)
    (minutes : Int)
    (apiCall : TimeWindow → Except ApiFault (Option (List RawExternalOrder))) :
    Except FetchError (List RawExternalOrder) :=
  if !ready then
    .error (.configurationError
      "Idosell API client not initialized. Check your credentials.")
  else
    match apiCall (timeWindowUsed clock0 clock1 minutes) with
    | .ok results => .ok (results.getD [])
    | .error e =>
      if isEmptyResultFault e then .ok []
      else .error (.externalApiError ("Failed to download orders: " ++ e.message))

/-! ## Scheduler / run-guard (`OrderSchedulerService`)

The scheduler's mutable state is the `isRunning` flag.  The two awaited
external calls of a run are the phases below; an execution is recorded as
the list of phases that were started, each paired with the value the
`isRunning` flag had while that awaited call was in flight (the value a
concurrent tick would observe). -/

/-- The awaited external calls of a scheduler run. -/
inductive Phase where
  | downloadWork
  | statusMonitorWork
deriving Repr, DecidableEq

/-- The scheduler's run-guard state. -/
structure SchedulerState where
  isRunning : Bool
deriving Repr, DecidableEq

/-- `OrderSchedulerService.downloadNewOrders`: awaits
`downloadAndSaveNewlyAddedOrdersFromScheduler` (flag unchanged while in
flight), its catch swallows any failure of that call, and its `finally`
sets `isRunning` to `false` before returning. -/
def downloadNewOrders (s : SchedulerState) (_downloadFails : Bool) :
    SchedulerState × List (Phase × Bool) :=
  let events := [(Phase.downloadWork, s.isRunning)]
  ({ s with isRunning := false }, events)

/-- `OrderSchedulerService.runStatusMonitoringTask`: awaits
`externalApiService.runStatusMonitoringJob`; its catch logs and rethrows,
so the boolean result reports whether the task threw. -/
def runStatusMonitoringTask (s : SchedulerState) (statusFails : Bool) :
    (SchedulerState × List (Phase × Bool)) × Bool :=
  ((s, [(Phase.statusMonitorWork, s.isRunning)]), statusFails)

/-- `OrderSchedulerService.runScheduledTask`: skips when `isRunning` is
already `true`; otherwise sets the flag, awaits `downloadNewOrders` then
`runStatusMonitoringTask` inside a try whose catch logs and whose
`finally` clears the flag. -/
def runScheduledTask (s : SchedulerState) (downloadFails statusFails : Bool) :
    SchedulerState × List (Phase × Bool) :=
  if s.isRunning then
    (s, [])
  else
    let s1 := { s with isRunning := true }
    let (s2, events1) := downloadNewOrders s1 downloadFails
    let ((s3, events2), _thrown) := runStatusMonitoringTask s2 statusFails
    ({ s3 with isRunning := false }, events1 ++ events2)

/-- `OrderSchedulerService.runStatusMonitoringNow`: skips when `isRunning`
is already `true`; otherwise sets the flag, awaits
`runStatusMonitoringTask` inside a try whose catch logs and whose
`finally` clears the flag. -/
def runStatusMonitoringNow (s : SchedulerState) (statusFails : Bool) :
    SchedulerState × List (Phase × Bool) :=
  if s.isRunning then
    (s, [])
  else
    let s1 := { s with isRunning := true }
    let ((s2, events), _thrown) := runStatusMonitoringTask s1 statusFails
    ({ s2 with isRunning := false }, events)

/-! ## Status monitoring job -/

/-- Whether a stored order is due for a status re-check: modified within
the last `modifiedLookbackHours` hours but not within the last
`lookbackMinutes` minutes (the scheduler passes 1 hour and 15 minutes).
Times are minutes on the logical clock. -/
def statusCheckEligible (now lookbackMinutes modifiedLookbackHours : Nat)
    (o : StoredOrder) : Bool :=
  (now ≤ o.updatedAt + modifiedLookbackHours * 60) &&
    (o.updatedAt + lookbackMinutes ≤ now)

/-- Modelled from the spec: the implementation of
`ExternalApiService.runStatusMonitoringJob` is not among the repository
sources — only its caller (`runStatusMonitoringTask`) and its test mocks
appear.  Per the spec it "re-checks recently-modified orders against the
external system's current status and updates them": every eligible stored
order whose current status the external system reports gets that status
written back with a refreshed `updatedAt`; other orders are untouched. -/
def runStatusMonitoringJob (orders : List StoredOrder)
    (externalStatus : String → Option String)
    (now lookbackMinutes modifiedLookbackHours : Nat) : List StoredOrder :=
  orders.map fun o =>
    if statusCheckEligible now lookbackMinutes modifiedLookbackHours o then
      match externalStatus o.externalId with
      | some currentStatus => { o with status := currentStatus, updatedAt := now }
      | none => o
    else o

/-! ## Concrete fixtures used by witnesses and counterexamples -/

/-- A fully populated currency payload. -/
def sampleCurrency : RawCurrency :=
  { currencyId := some "PLN", orderProductsCost := some 10 }

/-- A fully populated `orderDetails` payload. -/
def sampleDetails : RawOrderDetails :=
  { payments := some { orderCurrency := some sampleCurrency }
    productsResults := some [{ productId := some 7, productQuantity := some 2 }]
    orderStatus := some "finished"
    orderAddDate := some "2024-01-01 10:00:00"
    orderChangeDate := some "2024-01-02 10:00:00" }

/-- A well-formed raw order. -/
def sampleRawOrder : RawExternalOrder :=
  { orderId := some "1001", orderSerialNumber := some 501,
    orderDetails := some sampleDetails }

/-- The transform of `sampleRawOrder`. -/
def sampleTransformed : TransformedOrder :=
  { externalId := "1001"
    externalSerialNumber := "501"
    currency := "PLN"
    orderProducts := [{ productId := some 7, productQuantity := some 2 }]
    orderProductsCost := 10
    status := "finished"
    externalCreatedAt := "2024-01-01 10:00:00"
    externalUpdatedAt := "2024-01-02 10:00:00" }

/-- A raw order whose optional `orderSerialNumber` is absent. -/
def serialMissingOrder : RawExternalOrder :=
  { orderId := some "1002", orderSerialNumber := none,
    orderDetails := some sampleDetails }

/-! ## Helper lemmas about the store -/

/-- `findOneAndUpdate` returns the first match with the `$set` applied. -/
theorem updateByExternalId_find (orders : List StoredOrder) (eid : String)
    (t : TransformedOrder) (now : Nat) (ex : StoredOrder)
    (h : OrderModel.getByExternalId orders eid = some ex) :
    (OrderModel.updateByExternalId orders eid t now).2 =
      some (OrderModel.applyUpdate ex t now) := by
  induction orders with
  | nil => simp [OrderModel.getByExternalId] at h
  | cons o rest ih =>
    unfold OrderModel.getByExternalId at h
    by_cases hc : o.externalId = eid
    · rw [List.find?_cons_of_pos _ (by simpa using hc)] at h
      obtain rfl : o = ex := by injection h
      unfold OrderModel.updateByExternalId
      simp [hc]
    · rw [List.find?_cons_of_neg _ (by simpa using hc)] at h
      unfold OrderModel.updateByExternalId
      simpa [hc] using ih h

/-- `updateByExternalId` keyed by the update data's own `externalId`
preserves the sequence of stored external ids. -/
theorem updateByExternalId_map_externalId (orders : List StoredOrder)
    (t : TransformedOrder) (now : Nat) :
    ((OrderModel.updateByExternalId orders t.externalId t now).1.map
        fun o => o.externalId) =
      orders.map fun o => o.externalId := by
  induction orders with
  | nil => rfl
  | cons o rest ih =>
    unfold OrderModel.updateByExternalId
    by_cases hc : o.externalId = t.externalId
    · simp [hc, OrderModel.applyUpdate]
    · simp [hc, ih]

/-- The spec's uniqueness invariant: the stored external ids are pairwise
distinct (part_016 line 95 enforces it in Mongo through a unique index). -/
def uniqueIds (orders : List StoredOrder) : Prop :=
  (orders.map fun o => o.externalId).Nodup

/-- One pass of the upsert gate's loop preserves the uniqueness
invariant. -/
theorem saveOneOrder_uniqueIds (updateExisting : Bool) (now : Nat) (db : Db)
    (results : SaveResults) (order : RawExternalOrder)
    (h : uniqueIds db.orders) :
    uniqueIds (saveOneOrder updateExisting now (db, results) order).1.orders := by
  unfold saveOneOrder
  cases htr : transformOrderData order with
  | error e => exact h
  | ok t =>
    by_cases hid : t.externalId = ""
    · simpa [hid] using h
    · simp only [hid, if_neg, ite_false]
      cases hex : db.getByExternalId t.externalId with
      | some ex =>
        cases updateExisting with
        | false => exact h
        | true =>
          by_cases hw : t.externalId ∈ db.failingWrites
          · simpa [Db.updateByExternalId, hw] using h
          · simpa [Db.updateByExternalId, hw, uniqueIds,
              updateByExternalId_map_externalId] using h
      | none =>
        by_cases hw : t.externalId ∈ db.failingWrites
        · simpa [Db.create, hw] using h
        · have hnotin : t.externalId ∉ db.orders.map fun o => o.externalId := by
            intro hmem
            obtain ⟨o, ho, he⟩ := List.mem_map.1 hmem
            have hfind : ∀ x ∈ db.orders, ¬ (x.externalId = t.externalId) := by
              simpa using List.find?_eq_none.1 hex
            exact hfind o ho he
          have hgoal : (db.orders.map fun o => o.externalId).Nodup ∧
              t.externalId ∉ db.orders.map fun o => o.externalId :=
            ⟨h, hnotin⟩
          simpa [Db.create, hw, uniqueIds, OrderModel.create,
            List.nodup_append] using hgoal

/-- Folding the gate's loop preserves the uniqueness invariant. -/
theorem foldl_saveOneOrder_uniqueIds (updateExisting : Bool) (now : Nat) :
    ∀ (orders : List RawExternalOrder) (acc : Db × SaveResults),
      uniqueIds acc.1.orders →
      uniqueIds (orders.foldl (saveOneOrder updateExisting now) acc).1.orders
  | [], _, h => h
  | o :: rest, acc, h => by
    have hstep := saveOneOrder_uniqueIds updateExisting now acc.1 acc.2 o h
    simpa using foldl_saveOneOrder_uniqueIds updateExisting now rest
      (saveOneOrder updateExisting now (acc.1, acc.2) o) hstep

/-! ## Claims -/

/-- C1: for every transformed order and every `updateExisting`, the upsert
gate yields exactly one of three outcomes — no stored record with the
external id: a record is created with `createdAt = updatedAt = now` and
`created` incremented; a record exists and `updateExisting = true`: the
sync fields are replaced via the `$set`, `updatedAt` refreshed, `createdAt`
preserved, `updated` incremented; a record exists and
`updateExisting = false`: no write, `skipped` incremented. -/
theorem c1_upsert_gate_outcomes (order : RawExternalOrder)
    (t : TransformedOrder) (db : Db) (results : SaveResults) (now : Nat)
    (htrans : transformOrderData order = .ok t)
    (hid : ¬ t.externalId = "")
    (hw : t.externalId ∉ db.failingWrites) :
    (db.getByExternalId t.externalId = none →
      ∀ updateExisting,
        saveOneOrder updateExisting now (db, results) order =
          ({ db with orders := (OrderModel.create db.orders t now).1 },
           { results with created := results.created + 1 }) ∧
        (OrderModel.create db.orders t now).2.createdAt = now ∧
        (OrderModel.create db.orders t now).2.updatedAt = now) ∧
    (∀ ex, db.getByExternalId t.externalId = some ex →
      saveOneOrder true now (db, results) order =
        ({ db with
            orders := (OrderModel.updateByExternalId db.orders t.externalId t now).1 },
         { results with updated := results.updated + 1 }) ∧
      (OrderModel.updateByExternalId db.orders t.externalId t now).2 =
        some (OrderModel.applyUpdate ex t now) ∧
      (OrderModel.applyUpdate ex t now).createdAt = ex.createdAt ∧
      (OrderModel.applyUpdate ex t now).updatedAt = now ∧
      (OrderModel.applyUpdate ex t now).externalId = t.externalId ∧
      (OrderModel.applyUpdate ex t now).externalSerialNumber = some t.externalSerialNumber ∧
      (OrderModel.applyUpdate ex t now).currency = t.currency ∧
      (OrderModel.applyUpdate ex t now).orderProducts = some t.orderProducts ∧
      (OrderModel.applyUpdate ex t now).orderProductsCost = some t.orderProductsCost ∧
      (OrderModel.applyUpdate ex t now).status = t.status ∧
      (OrderModel.applyUpdate ex t now).externalCreatedAt = some t.externalCreatedAt ∧
      (OrderModel.applyUpdate ex t now).externalUpdatedAt = some t.externalUpdatedAt) ∧
    (∀ ex, db.getByExternalId t.externalId = some ex →
      saveOneOrder false now (db, results) order =
        (db, { results with skipped := results.skipped + 1 })) := by
  refine ⟨?_, ?_, ?_⟩
  · intro hnone updateExisting
    refine ⟨?_, rfl, rfl⟩
    simp [saveOneOrder, htrans, hid, hnone, Db.create, hw]
  · intro ex hsome
    refine ⟨?_, updateByExternalId_find db.orders t.externalId t now ex hsome,
      rfl, rfl, rfl, rfl, rfl, rfl, rfl, rfl, rfl, rfl⟩
    simp [saveOneOrder, htrans, hid, hsome, Db.updateByExternalId, hw]
  · intro ex hsome
    simp [saveOneOrder, htrans, hid, hsome]

/-- C1 witness: saving `sampleRawOrder` into an empty store creates the
record at time 5 and increments `created`. -/
theorem c1_upsert_gate_outcomes_witness :
    saveOneOrder true 5 (Db.mk [] [], SaveResults.mk 1 0 0 0 []) sampleRawOrder =
      (Db.mk (OrderModel.create [] sampleTransformed 5).1 [],
       SaveResults.mk 1 1 0 0 []) ∧
    (OrderModel.create [] sampleTransformed 5).2.createdAt = 5 ∧
    (OrderModel.create [] sampleTransformed 5).2.updatedAt = 5 :=
  (c1_upsert_gate_outcomes sampleRawOrder sampleTransformed (Db.mk [] [])
    (SaveResults.mk 1 0 0 0 []) 5 (by
      simp only [transformOrderData, sampleRawOrder, sampleDetails,
        sampleCurrency, sampleTransformed, Except.ok.injEq]
      decide) (by decide)
    (by decide)).1 rfl true

/-- C2: for every time-window fetch whose API call fails, the recognized
empty-result fault (cause present, `faultCode` 2, the hardcoded Polish
`faultString`) yields `[]` without throwing, and every other fault is
wrapped and propagated as the `ExternalApiError`. -/
theorem c2_empty_result_fault_mapping (clock0 clock1 minutes : Int)
    (e : ApiFault)
    (apiCall : TimeWindow → Except ApiFault (Option (List RawExternalOrder)))
    (hfail : apiCall (timeWindowUsed clock0 clock1 minutes) = .error e) :
    (isEmptyResultFault e = true →
      downloadOrdersByTimeWindow true clock0 clock1 minutes apiCall = .ok []) ∧
    (isEmptyResultFault e = false →
      downloadOrdersByTimeWindow true clock0 clock1 minutes apiCall =
        .error (.externalApiError ("Failed to download orders: " ++ e.message))) := by
  constructor
  · intro hE
    simp [downloadOrdersByTimeWindow, hfail, hE]
  · intro hE
    simp [downloadOrdersByTimeWindow, hfail, hE]

/-- The empty-result fault as raised by the Idosell search endpoint. -/
def emptyResultFault : ApiFault :=
  { hasCause := true, faultCode := 2,
    faultString := "Wyszukiwarka zamówień: zwrócono pusty wynik",
    message := "Request failed" }

/-- C2 witness: the recognized empty-result fault maps to `[]`. -/
theorem c2_empty_result_fault_mapping_witness :
    downloadOrdersByTimeWindow true 0 0 60 (fun _ => .error emptyResultFault) =
      .ok [] :=
  (c2_empty_result_fault_mapping 0 0 60 emptyResultFault
    (fun _ => .error emptyResultFault) rfl).1 (by decide)

/-- C3: the claim fails on the code.  A raw order whose optional
`orderSerialNumber` is absent (or null) makes `transformOrderData` throw a
TypeError — `_.get(externalOrder, 'orderSerialNumber', null).toString()`
calls `.toString()` on the `null` default — instead of producing a record
or a per-item transform failure report; the batch loop then catches the
throw and records it as a generic save error. -/
theorem c3_transform_throws_on_missing_serial :
    transformOrderData serialMissingOrder =
      .error "Cannot read properties of null (reading 'toString')" ∧
    (saveOrdersToDatabase [serialMissingOrder] true 0 (Db.mk [] [])).2.errors =
      ["Failed to save order: Cannot read properties of null (reading 'toString')"] :=
  ⟨rfl, rfl⟩

/-- C4: the claim fails on the code.  Both runs happen at the same logical
time 5, yet the second run changes the stored record: `orderModel.create`
persists none of the transformer's sync fields (`orderProducts`,
`orderProductsCost`, `externalSerialNumber`, `externalCreatedAt`,
`externalUpdatedAt`), so the second run's `$set` adds fields the first run
never stored.  The outcome part of the claim holds: the second run reports
`updated`, not `created`. -/
theorem c4_second_run_changes_stored_record :
    (saveOrdersToDatabase [sampleRawOrder] true 5 (Db.mk [] [])).2.created = 1 ∧
    (saveOrdersToDatabase [sampleRawOrder] true 5
        (saveOrdersToDatabase [sampleRawOrder] true 5 (Db.mk [] [])).1).2.updated = 1 ∧
    (saveOrdersToDatabase [sampleRawOrder] true 5
        (saveOrdersToDatabase [sampleRawOrder] true 5 (Db.mk [] [])).1).2.created = 0 ∧
    (saveOrdersToDatabase [sampleRawOrder] true 5
        (saveOrdersToDatabase [sampleRawOrder] true 5 (Db.mk [] [])).1).1.orders ≠
      (saveOrdersToDatabase [sampleRawOrder] true 5 (Db.mk [] [])).1.orders := by
  refine ⟨rfl, rfl, rfl, ?_⟩
  decide

/-- C5: the claim fails on the code.  In a fresh run both phases execute,
but the `finally` inside `downloadNewOrders` (order-scheduler-service.js
line 97) clears `isRunning` before `runStatusMonitoringTask` is awaited,
so the status-monitoring phase of the run is in flight with
`isRunning = false` — contradicting "true for the entire duration". -/
theorem c5_guard_released_before_status_monitoring :
    runScheduledTask { isRunning := false } false false =
      ({ isRunning := false },
       [(Phase.downloadWork, true), (Phase.statusMonitorWork, false)]) :=
  rfl

/-- C6: while `isRunning` is true, both `runScheduledTask` and
`runStatusMonitoringNow` return immediately as no-ops: the scheduler state
is unchanged and no phase (hence no batch, store write or counter change)
is started — the tick is skipped, not queued. -/
theorem c6_run_guard_no_op (s : SchedulerState)
    (downloadFails statusFails : Bool) (h : s.isRunning = true) :
    runScheduledTask s downloadFails statusFails = (s, []) ∧
    runStatusMonitoringNow s statusFails = (s, []) := by
  constructor
  · simp [runScheduledTask, h]
  · simp [runStatusMonitoringNow, h]

/-- C6 witness at the running state. -/
theorem c6_run_guard_no_op_witness :
    runScheduledTask { isRunning := true } false false =
      ({ isRunning := true }, []) ∧
    runStatusMonitoringNow { isRunning := true } false =
      ({ isRunning := true }, []) :=
  c6_run_guard_no_op { isRunning := true } false false rfl

/-- C7 counterexample: a transform error that is a throw (missing
`orderSerialNumber`) appends a message but does NOT increment `skipped`,
contradicting the claim that a transform error on an item increments
`skipped` and appends a message. -/
theorem c7_thrown_transform_error_not_skipped :
    (saveOrdersToDatabase [serialMissingOrder] true 0 (Db.mk [] [])).2.skipped = 0 ∧
    (saveOrdersToDatabase [serialMissingOrder] true 0 (Db.mk [] [])).2.errors.length = 1 :=
  ⟨rfl, rfl⟩

/-- C7 amended: the loop never throws for a per-item failure and processes
items in order — a transform failure detected as a missing external id
increments `skipped` and appends a message; a thrown transform error
appends a message without touching any counter; a persistence (write)
error appends a message without incrementing `created` or `updated` and
leaves the store unchanged; in every case the fold continues with the next
item. -/
theorem c7_amended_per_item_error_handling (updateExisting : Bool)
    (now : Nat) (db : Db) (results : SaveResults) (order : RawExternalOrder) :
    (∀ e, transformOrderData order = .error e →
      saveOneOrder updateExisting now (db, results) order =
        (db, { results with
          errors := results.errors ++ ["Failed to save order: " ++ e] })) ∧
    (∀ t, transformOrderData order = .ok t → t.externalId = "" →
      saveOneOrder updateExisting now (db, results) order =
        (db, { results with
          skipped := results.skipped + 1
          errors := results.errors ++
            ["Order missing external ID: " ++ reprStr order] })) ∧
    (∀ t, transformOrderData order = .ok t → ¬ t.externalId = "" →
        t.externalId ∈ db.failingWrites → updateExisting = true →
      saveOneOrder updateExisting now (db, results) order =
        (db, { results with
          errors := results.errors ++
            ["Failed to save order: MongoServerError: write failed"] })) ∧
    (∀ rest, saveOrdersToDatabase (order :: rest) updateExisting now db =
      rest.foldl (saveOneOrder updateExisting now)
        (saveOneOrder updateExisting now
          (db, { total := rest.length + 1, created := 0, updated := 0,
                 skipped := 0, errors := [] }) order)) := by
  refine ⟨?_, ?_, ?_, ?_⟩
  · intro e he
    simp [saveOneOrder, he]
  · intro t ht hid
    simp [saveOneOrder, ht, hid]
  · intro t ht hid hw hu
    subst hu
    cases hex : db.getByExternalId t.externalId with
    | some ex => simp [saveOneOrder, ht, hid, hex, Db.updateByExternalId, hw]
    | none => simp [saveOneOrder, ht, hid, hex, Db.create, hw]
  · intro rest
    simp [saveOrdersToDatabase, List.foldl_cons]

/-- C7 amended witness: the thrown transform error of `serialMissingOrder`
is collected as a per-item message with no counter change. -/
theorem c7_amended_per_item_error_handling_witness :
    saveOneOrder true 0 (Db.mk [] [], SaveResults.mk 1 0 0 0 []) serialMissingOrder =
      (Db.mk [] [], SaveResults.mk 1 0 0 0
        ["Failed to save order: Cannot read properties of null (reading 'toString')"]) :=
  (c7_amended_per_item_error_handling true 0 (Db.mk [] [])
    (SaveResults.mk 1 0 0 0 []) serialMissingOrder).1
    "Cannot read properties of null (reading 'toString')" rfl

/-- C8: the uniqueness invariant — at most one stored record per distinct
`externalId` — is preserved at every point of a sequence of upserts
through the gate: by each single loop pass and by a whole batch. -/
theorem c8_externalId_uniqueness (orders : List RawExternalOrder)
    (updateExisting : Bool) (now : Nat) (db : Db) (h : uniqueIds db.orders) :
    (∀ results order,
      uniqueIds (saveOneOrder updateExisting now (db, results) order).1.orders) ∧
    uniqueIds (saveOrdersToDatabase orders updateExisting now db).1.orders := by
  constructor
  · intro results order
    exact saveOneOrder_uniqueIds updateExisting now db results order h
  · unfold saveOrdersToDatabase
    by_cases he : orders.isEmpty
    · simpa [he] using h
    · simpa [he] using foldl_saveOneOrder_uniqueIds updateExisting now orders
        (db, { total := orders.length, created := 0, updated := 0,
               skipped := 0, errors := [] }) h

/-- C8 witness: a batch that upserts the same external id twice still
leaves pairwise-distinct stored external ids. -/
theorem c8_externalId_uniqueness_witness :
    uniqueIds (saveOrdersToDatabase [sampleRawOrder, sampleRawOrder, serialMissingOrder]
      true 3 (Db.mk [] [])).1.orders :=
  (c8_externalId_uniqueness [sampleRawOrder, sampleRawOrder, serialMissingOrder]
    true 3 (Db.mk [] []) (by unfold uniqueIds; decide)).2

/-- C9 counterexample: a nonpositive lookback is accepted, not rejected —
`downloadOrdersByTimeWindow` with `minutes = -5` proceeds to the API call
and succeeds; moreover when the two clock reads differ (first read 1000,
second 1007, lookback 5) no single captured `now` satisfies
`from = now - lookback ∧ to = now`. -/
theorem c9_nonpositive_lookback_not_rejected :
    downloadOrdersByTimeWindow true 1000 1000 (-5) (fun _ => .ok (some [])) =
      .ok [] ∧
    ¬ ∃ now : Int, timeWindowUsed 1000 1007 5 =
      { dateFrom := now - 5, dateTo := now } := by
  constructor
  · rfl
  · rintro ⟨now, hwin⟩
    simp [timeWindowUsed, TimeWindow.mk.injEq] at hwin
    omega

/-- C9 amended: for every pair of successive clock reads and every
`minutes` — nonpositive included — the fetch computes the window with no
side effects as `to` = first read and `from` = second read minus
`minutes`, and proceeds against the API with that window instead of
rejecting. -/
theorem c9_amended_window_formula (clock0 clock1 minutes : Int)
    (apiCall : TimeWindow → Except ApiFault (Option (List RawExternalOrder)))
    (results : Option (List RawExternalOrder))
    (hok : apiCall (timeWindowUsed clock0 clock1 minutes) = .ok results) :
    timeWindowUsed clock0 clock1 minutes =
      { dateFrom := clock1 - minutes, dateTo := clock0 } ∧
    downloadOrdersByTimeWindow true clock0 clock1 minutes apiCall =
      .ok (results.getD []) := by
  refine ⟨rfl, ?_⟩
  simp [downloadOrdersByTimeWindow, hok]

/-- C9 amended witness at `minutes = -5`. -/
theorem c9_amended_window_formula_witness :
    timeWindowUsed 1000 1001 (-5) = { dateFrom := 1006, dateTo := 1000 } ∧
    downloadOrdersByTimeWindow true 1000 1001 (-5)
        (fun _ => .ok (some [sampleRawOrder])) = .ok [sampleRawOrder] :=
  c9_amended_window_formula 1000 1001 (-5)
    (fun _ => .ok (some [sampleRawOrder])) (some [sampleRawOrder]) rfl

/-- A stored order fixture for the status-monitoring pass. -/
def monitoredOrder : StoredOrder :=
  { mongoId := 0, externalId := "1001", totalAmount := 0, currency := "PLN",
    status := "pending", orderDate := 0, createdAt := 0, updatedAt := 0,
    externalSerialNumber := none, orderProducts := none,
    orderProductsCost := none, externalCreatedAt := none,
    externalUpdatedAt := none }

/-- C10: invoked while no run is in flight, the status-monitoring pass
performs the status re-check call (with the shared run-guard held for its
duration, released afterwards), and the job — modelled from the spec, its
implementation being absent from the sources — writes the external
system's current status back to every eligible recently-modified order. -/
theorem c10_status_monitoring_pass (s : SchedulerState) (statusFails : Bool)
    (orders : List StoredOrder) (externalStatus : String → Option String)
    (now lookbackMinutes modifiedLookbackHours : Nat) (o : StoredOrder)
    (currentStatus : String)
    (hidle : s.isRunning = false)
    (hmem : o ∈ orders)
    (helig : statusCheckEligible now lookbackMinutes modifiedLookbackHours o = true)
    (hstat : externalStatus o.externalId = some currentStatus) :
    runStatusMonitoringNow s statusFails =
      ({ isRunning := false }, [(Phase.statusMonitorWork, true)]) ∧
    { o with status := currentStatus, updatedAt := now } ∈
      runStatusMonitoringJob orders externalStatus now lookbackMinutes
        modifiedLookbackHours := by
  constructor
  · simp [runStatusMonitoringNow, runStatusMonitoringTask, hidle]
  · unfold runStatusMonitoringJob
    exact List.mem_map.2 ⟨o, hmem, by simp [helig, hstat]⟩

/-- C10 witness: an idle invocation re-checks and updates an eligible
order. -/
theorem c10_status_monitoring_pass_witness :
    runStatusMonitoringNow { isRunning := false } false =
      ({ isRunning := false }, [(Phase.statusMonitorWork, true)]) ∧
    { monitoredOrder with status := "finished", updatedAt := 30 } ∈
      runStatusMonitoringJob [monitoredOrder] (fun _ => some "finished") 30 15 1 :=
  c10_status_monitoring_pass { isRunning := false } false [monitoredOrder]
    (fun _ => some "finished") 30 15 1 monitoredOrder "finished" rfl
    (List.mem_singleton.2 rfl) (by decide) rfl

end BrandsManago
